import Mathlib

/-!
Verification of the Planta-lovers app (TypeScript sources) against its
natural-language specification.

Shallow embedding:
* `types.ts` becomes Lean structures (`PlantAnalysis`, `PlantNote`,
  `UserPlant`).
* The localStorage-backed store (`getPlants`, `savePlant`,
  `addNoteToPlant`, `toggleFavoritePlant`) becomes pure state-passing
  functions over a `Storage` value.  The raw string blob under the
  storage key is abstracted to: absent, unreadable/unparsable, or a
  well-formed serialised plant list (JSON stringify/parse round-trips on
  well-formed data).
* The AI service module becomes: a `ModuleState` holding the credential
  constants captured at module evaluation, a backend selector embedding
  the `if (OPENAI_API_KEY)` truthiness test, and the post-parse
  validation logic of each identify path over a `ParsedContent` record
  whose fields are `Option`-valued (a free-JSON object may omit any
  field; a JS `===` comparison against a missing field is `false`).
* Effectful sub-expressions (`Date.now()`, `new Date().toISOString()`,
  network responses) are passed in as explicit arguments.
-/

namespace Planta

/-- `'low' | 'medium' | 'high'` from `types.ts`. -/
inductive Requirement where
  | low | medium | high
deriving DecidableEq, Repr

/-- `'toxic' | 'safe' | 'unknown'` from `types.ts`. -/
inductive Toxicity where
  | toxic | safe | unknown
deriving DecidableEq, Repr

/-- `'easy' | 'medium' | 'hard'` from `types.ts`. -/
inductive Difficulty where
  | easy | medium | hard
deriving DecidableEq, Repr

/-- `interface PlantAnalysis` from `types.ts`. -/
structure PlantAnalysis where
  commonName : String
  scientificName : String
  description : String
  lightRequirement : Requirement
  wateringRequirement : Requirement
  temperatureRange : String
  toxicity : Toxicity
  difficulty : Difficulty
  funFacts : List String
deriving DecidableEq, Repr

/-- `interface PlantNote` from `types.ts`. -/
structure PlantNote where
  id : String
  date : String
  text : String
deriving DecidableEq, Repr

/-- `interface UserPlant extends PlantAnalysis` from `types.ts`. -/
structure UserPlant extends PlantAnalysis where
  id : String
  image : String
  dateAdded : String
  isFavorite : Bool
  notes : List PlantNote
deriving DecidableEq, Repr

/-- The content of the localStorage slot under `STORAGE_KEY`:
`getItem` returns null (`absent`), a string that `JSON.parse` rejects or
that is otherwise unreadable (`corrupted`), or the serialisation of a
plant list (`stored`). -/
inductive Storage where
  | absent
  | corrupted
  | stored (plants : List UserPlant)
deriving DecidableEq, Repr

/-- `getPlants` (storage service): `try { const data = getItem(KEY);
return data ? JSON.parse(data) : []; } catch { return []; }`. -/
def getPlants : Storage → List UserPlant
  | .absent => []
  | .corrupted => []
  | .stored plants => plants

/-- `localStorage.setItem(STORAGE_KEY, JSON.stringify(plants))`:
replaces the whole blob with the serialised list. -/
def setItem (plants : List UserPlant) : Storage :=
  .stored plants

/-- `savePlant`: prepend the plant and persist the whole list. -/
def savePlant (st : Storage) (plant : UserPlant) : Storage :=
  setItem (plant :: getPlants st)

/-- JS `Array.prototype.findIndex`, with the `-1` result modelled as
`none`. -/
def findIndex (q : α → Bool) : List α → Option Nat
  | [] => none
  | x :: xs => if q x then some 0 else (findIndex q xs).map (· + 1)

/-- `addNoteToPlant`: look up the plant by id, prepend a fresh note
(its `Date.now()` id and ISO date are passed in), persist, and return
the updated plant; return null when the id is absent.  (`plant.notes ||
[]` in the source guards legacy data with no `notes` field; here
`notes` is total.) -/
def addNoteToPlant (st : Storage) (plantId noteText noteId noteDate : String) :
    Storage × Option UserPlant :=
  let plants := getPlants st
  match findIndex (fun p => p.id == plantId) plants with
  | none => (st, none)
  | some index =>
    match plants.get? index with
    | none => (st, none)
    | some plant0 =>
      let newNote : PlantNote := { id := noteId, date := noteDate, text := noteText }
      let plant := { plant0 with notes := newNote :: plant0.notes }
      (setItem (plants.set index plant), some plant)

/-- `toggleFavoritePlant`: look up the plant by id, negate
`isFavorite`, persist, and return the updated plant; return null when
the id is absent. -/
def toggleFavoritePlant (st : Storage) (plantId : String) :
    Storage × Option UserPlant :=
  let plants := getPlants st
  match findIndex (fun p => p.id == plantId) plants with
  | none => (st, none)
  | some index =>
    match plants.get? index with
    | none => (st, none)
    | some plant0 =>
      let plant := { plant0 with isFavorite := !plant0.isFavorite }
      (setItem (plants.set index plant), some plant)

/-- JS `String.prototype.trim`: strip leading and trailing whitespace.
(Defined over the character list so that it evaluates by kernel
reduction; `String.trim` in core is defined by well-founded recursion.) -/
def jsTrim (s : String) : String :=
  .mk (((s.toList.dropWhile Char.isWhitespace).reverse.dropWhile Char.isWhitespace).reverse)

/-- `handleAddNote` (App component): `if (!selectedPlant || !text.trim())
return;` then call the store.  JS string truthiness: the empty string is
falsy, so a whitespace-only `text` is rejected before the store is
reached. -/
def handleAddNote (selectedPlant : Option UserPlant) (st : Storage)
    (text noteId noteDate : String) : Storage × Option UserPlant :=
  match selectedPlant with
  | none => (st, none)
  | some sp =>
    if jsTrim text = "" then (st, none)
    else addNoteToPlant st sp.id text noteId noteDate

/-! ### AI service module (`identifyPlant` / `generatePlantImage`) -/

/-- The process environment as seen by the service module. -/
structure Env where
  apiKeyOpenAI : Option String
  apiKey : Option String
deriving DecidableEq, Repr

/-- The module-level constants of the service file, captured once when
the module is evaluated: `const OPENAI_API_KEY = process.env.API_KEY_OPENAI;
const GEMINI_API_KEY = process.env.API_KEY;`. -/
structure ModuleState where
  OPENAI_API_KEY : Option String
  GEMINI_API_KEY : Option String
deriving DecidableEq, Repr

/-- Module evaluation (load time): read the env into the constants. -/
def initModule (env : Env) : ModuleState :=
  { OPENAI_API_KEY := env.apiKeyOpenAI, GEMINI_API_KEY := env.apiKey }

/-- JS truthiness of a possibly-undefined string: `undefined` and `""`
are falsy. -/
def truthy : Option String → Bool
  | none => false
  | some s => s != ""

/-- The two interchangeable backends. -/
inductive Backend where
  | openai | gemini
deriving DecidableEq, Repr

/-- The selection test `if (OPENAI_API_KEY) ... else ...` shared by
`identifyPlant` and `generatePlantImage`.  It reads the module constant,
not the environment current at call time. -/
def selectBackend (m : ModuleState) : Backend :=
  if truthy m.OPENAI_API_KEY then .openai else .gemini

/-- Backend chosen by a call to `identifyPlant` made while the current
process environment is `currentEnv`.  The source expression mentions
only the module constant, so `currentEnv` does not occur on the
right-hand side. -/
def identifyPlantBackend (m : ModuleState) (currentEnv : Env) : Backend :=
  selectBackend m

/-- Backend chosen by a call to `generatePlantImage` made while the
current process environment is `currentEnv`. -/
def generatePlantImageBackend (m : ModuleState) (currentEnv : Env) : Backend :=
  selectBackend m

/-- A parsed JSON object from a model response.  Every field is
optional: a free-JSON reply may omit any of them.  (Extra unknown keys
do not affect any of the embedded checks.) -/
structure ParsedContent where
  commonName : Option String
  scientificName : Option String
  description : Option String
  lightRequirement : Option String
  wateringRequirement : Option String
  temperatureRange : Option String
  toxicity : Option String
  difficulty : Option String
  funFacts : Option (List String)
deriving DecidableEq, Repr

/-- The post-parse step of `identifyWithOpenAI`: after
`JSON.parse(data.choices[0].message.content)`, throw the "no plant"
error when either sentinel matches (`===` against a missing field is
false), otherwise `return content as PlantAnalysis` — an unchecked
cast, no shape validation. -/
def identifyWithOpenAI_postParse (content : ParsedContent) :
    Except String ParsedContent :=
  if content.commonName == some "Unknown" || content.scientificName == some "Unknown" then
    .error "No se pudo identificar una planta en esta imagen."
  else
    .ok content

/-- The post-parse step of `identifyWithGemini`: after
`JSON.parse(text) as PlantAnalysis`, the same sentinel check and
unchecked return. -/
def identifyWithGemini_postParse (data : ParsedContent) :
    Except String ParsedContent :=
  if data.commonName == some "Unknown" || data.scientificName == some "Unknown" then
    .error "No se pudo identificar una planta en esta imagen."
  else
    .ok data

/-- `identifyPlant` applied to a backend response already parsed as
`content`: dispatch on the module constant, then the chosen backend's
post-parse validation. -/
def identifyPlant_postParse (m : ModuleState) (content : ParsedContent) :
    Except String ParsedContent :=
  if truthy m.OPENAI_API_KEY then identifyWithOpenAI_postParse content
  else identifyWithGemini_postParse content

/-- The `required` list of the Gemini `plantSchema` — the response
shape the spec expects a validator to enforce.  `shapeOK` holds when
every required field is present. -/
def shapeOK (c : ParsedContent) : Bool :=
  c.commonName.isSome && c.scientificName.isSome && c.lightRequirement.isSome &&
  c.wateringRequirement.isSome && c.difficulty.isSome && c.toxicity.isSome &&
  c.funFacts.isSome && c.description.isSome

/-- Prompt that `generateImageWithOpenAI` sends to the image API:
`` `${prompt}. Photorealistic, high quality, botanical photography style,
isolated subject.` ``. -/
def generateImageWithOpenAI_sentPrompt (prompt : String) : String :=
  prompt ++ ". Photorealistic, high quality, botanical photography style, isolated subject."

/-- Prompt that `generateImageWithGemini` sends: the prompt unchanged
(`contents: { parts: [{ text: prompt }] }`). -/
def generateImageWithGemini_sentPrompt (prompt : String) : String :=
  prompt

/-- Prompt reaching the network for a `generatePlantImage(prompt)`
call: `generatePlantImage` forwards `prompt` unmodified to whichever
backend the module constant selects. -/
def generatePlantImage_sentPrompt (m : ModuleState) (prompt : String) : String :=
  if truthy m.OPENAI_API_KEY then generateImageWithOpenAI_sentPrompt prompt
  else generateImageWithGemini_sentPrompt prompt

/-- `handleGenerateImage` (App component): `if (!prompt.trim()) return;`
then `generatePlantImage(prompt + " . Photorealistic, high quality,
botanical photography style.")` — the caller appends its own suffix.
Returns the argument passed to `generatePlantImage`, or `none` when the
guard returns early. -/
def handleGenerateImage_arg (prompt : String) : Option String :=
  if jsTrim prompt = "" then none
  else some (prompt ++ " . Photorealistic, high quality, botanical photography style.")

/-- The style suffix named by the spec, verbatim; defined from the
spec's words (not from the code) so the prompts the code sends can be
compared against it. -/
def spec_claimedStyleSuffix : String :=
  "photorealistic, high-quality, botanical-photography style, isolated subject"

/-- A concrete plant used by the closed witness/counterexample
theorems. -/
def samplePlant : UserPlant where
  commonName := "Rosa"
  scientificName := "Rosa gallica"
  description := "Una rosa."
  lightRequirement := .high
  wateringRequirement := .medium
  temperatureRange := "18-24"
  toxicity := .safe
  difficulty := .easy
  funFacts := ["dato 1", "dato 2"]
  id := "1"
  image := "data:image/png;base64,AAA"
  dateAdded := "2024-01-01T00:00:00.000Z"
  isFavorite := false
  notes := []

/-- A second concrete plant (different id) for frame-condition
witnesses. -/
def samplePlant2 : UserPlant :=
  { samplePlant with id := "2", commonName := "Cactus", isFavorite := true }

/-- A concrete parsed response carrying the `Unknown` sentinel in
`commonName`. -/
def unknownContent : ParsedContent where
  commonName := some "Unknown"
  scientificName := some "Ficus"
  description := some "desc"
  lightRequirement := some "low"
  wateringRequirement := some "low"
  temperatureRange := some "18-24"
  toxicity := some "safe"
  difficulty := some "easy"
  funFacts := some ["a", "b"]

/-- A concrete parsed response with every required field present and no
sentinel. -/
def fullContent : ParsedContent :=
  { unknownContent with commonName := some "Rosa" }

/-- A concrete parsed response that fails the required-field shape
(`scientificName` and most other fields are missing). -/
def badShapeContent : ParsedContent where
  commonName := some "Rosa"
  scientificName := none
  description := none
  lightRequirement := none
  wateringRequirement := none
  temperatureRange := none
  toxicity := none
  difficulty := none
  funFacts := none

/-! ### List lemmas for `findIndex` / `List.set` -/

theorem findIndex_isSome_of_any {q : α → Bool} {l : List α}
    (h : l.any q = true) : (findIndex q l).isSome = true := by
  induction l with
  | nil => simp at h
  | cons x xs ih =>
    simp only [List.any_cons, Bool.or_eq_true] at h
    by_cases hx : q x
    · simp [findIndex, hx]
    · simp only [findIndex, hx, if_false]
      rcases h with h | h
      · exact absurd h hx
      · have := ih h
        rcases Option.isSome_iff_exists.mp this with ⟨i, hi⟩
        simp [hi]

theorem findIndex_none_of_not_any {q : α → Bool} {l : List α}
    (h : l.any q = false) : findIndex q l = none := by
  induction l with
  | nil => rfl
  | cons x xs ih =>
    simp only [List.any_cons, Bool.or_eq_false_iff] at h
    simp [findIndex, h.1, ih h.2]

theorem findIndex_lt_length {q : α → Bool} {l : List α} {i : Nat}
    (h : findIndex q l = some i) : i < l.length := by
  induction l generalizing i with
  | nil => simp [findIndex] at h
  | cons x xs ih =>
    simp only [findIndex] at h
    cases hqx : q x with
    | true =>
      rw [hqx, if_pos rfl] at h
      injection h with h
      simp only [List.length_cons]
      omega
    | false =>
      rw [hqx] at h
      simp only [Bool.false_eq_true, if_false] at h
      cases hfi : findIndex q xs with
      | none => rw [hfi] at h; exact absurd h (by simp)
      | some j =>
        rw [hfi, Option.map_some'] at h
        injection h with h
        have := ih hfi
        simp only [List.length_cons]
        omega

theorem get?_findIndex {q : α → Bool} {l : List α} {i : Nat}
    (h : findIndex q l = some i) : ∃ x, l.get? i = some x ∧ q x = true := by
  induction l generalizing i with
  | nil => simp [findIndex] at h
  | cons x xs ih =>
    simp only [findIndex] at h
    cases hqx : q x with
    | true =>
      rw [hqx, if_pos rfl] at h
      injection h with h
      exact ⟨x, by rw [← h]; rfl, hqx⟩
    | false =>
      rw [hqx] at h
      simp only [Bool.false_eq_true, if_false] at h
      cases hfi : findIndex q xs with
      | none => rw [hfi] at h; exact absurd h (by simp)
      | some j =>
        rw [hfi, Option.map_some'] at h
        injection h with h
        rcases ih hfi with ⟨y, hy, hqy⟩
        refine ⟨y, ?_, hqy⟩
        rw [← h]
        simpa using hy

theorem findIndex_set_same {q : α → Bool} {l : List α} {i : Nat} {y : α}
    (h : findIndex q l = some i) (hy : q y = true) :
    findIndex q (l.set i y) = some i := by
  induction l generalizing i with
  | nil => simp [findIndex] at h
  | cons x xs ih =>
    simp only [findIndex] at h
    cases hqx : q x with
    | true =>
      rw [hqx, if_pos rfl] at h
      injection h with h
      rw [← h]
      simp [List.set, findIndex, hy]
    | false =>
      rw [hqx] at h
      simp only [Bool.false_eq_true, if_false] at h
      cases hfi : findIndex q xs with
      | none => rw [hfi] at h; exact absurd h (by simp)
      | some j =>
        rw [hfi, Option.map_some'] at h
        injection h with h
        rw [← h]
        simp [List.set, findIndex, hqx, ih hfi]

theorem get?_set_self {l : List α} {i : Nat} {y : α}
    (h : i < l.length) : (l.set i y).get? i = some y := by
  induction l generalizing i with
  | nil => simp at h
  | cons x xs ih =>
    cases i with
    | zero => rfl
    | succ j =>
      simp only [List.length_cons, Nat.succ_lt_succ_iff] at h
      simpa [List.set] using ih h

theorem get?_set_ne {l : List α} {i j : Nat} {y : α}
    (h : i ≠ j) : (l.set i y).get? j = l.get? j := by
  induction l generalizing i j with
  | nil => simp
  | cons x xs ih =>
    cases i with
    | zero =>
      cases j with
      | zero => exact absurd rfl h
      | succ k => rfl
    | succ i' =>
      cases j with
      | zero => rfl
      | succ k =>
        have : i' ≠ k := by omega
        simpa [List.set] using ih this

theorem set_get?_self {l : List α} {i : Nat} {x : α}
    (h : l.get? i = some x) : l.set i x = l := by
  induction l generalizing i with
  | nil => rfl
  | cons a as ih =>
    cases i with
    | zero =>
      simp only [List.get?] at h
      obtain rfl : a = x := Option.some.inj h
      rfl
    | succ j =>
      simp only [List.get?] at h
      simp [List.set, ih h]

/-! ### Unfolding lemmas for the store operations -/

theorem getPlants_setItem (l : List UserPlant) : getPlants (setItem l) = l := rfl

theorem toggleFavoritePlant_eq {st : Storage} {pid : String} {i : Nat} {x : UserPlant}
    (hfi : findIndex (fun p => p.id == pid) (getPlants st) = some i)
    (hget : (getPlants st).get? i = some x) :
    toggleFavoritePlant st pid
      = (setItem ((getPlants st).set i { x with isFavorite := !x.isFavorite }),
         some { x with isFavorite := !x.isFavorite }) := by
  simp only [toggleFavoritePlant, hfi, hget]

theorem toggleFavoritePlant_absent {st : Storage} {pid : String}
    (hfi : findIndex (fun p => p.id == pid) (getPlants st) = none) :
    toggleFavoritePlant st pid = (st, none) := by
  simp only [toggleFavoritePlant, hfi]

theorem addNoteToPlant_eq {st : Storage} {pid : String} {i : Nat} {x : UserPlant}
    (hfi : findIndex (fun p => p.id == pid) (getPlants st) = some i)
    (hget : (getPlants st).get? i = some x) (text noteId noteDate : String) :
    addNoteToPlant st pid text noteId noteDate
      = (setItem ((getPlants st).set i
            { x with notes := ⟨noteId, noteDate, text⟩ :: x.notes }),
         some { x with notes := ⟨noteId, noteDate, text⟩ :: x.notes }) := by
  simp only [addNoteToPlant, hfi, hget]

theorem addNoteToPlant_absent {st : Storage} {pid : String}
    (hfi : findIndex (fun p => p.id == pid) (getPlants st) = none)
    (text noteId noteDate : String) :
    addNoteToPlant st pid text noteId noteDate = (st, none) := by
  simp only [addNoteToPlant, hfi]

/-! ### Claim theorems -/

/-- **C1** (confirmed): whichever backend the module constant selects,
a parsed backend response with `commonName = "Unknown"` or
`scientificName = "Unknown"` makes identify fail with the
no-plant-detected domain error, and consequently any successfully
returned analysis has both names different from `"Unknown"`. -/
theorem c1_identify_rejects_unknown (m : ModuleState) (c : ParsedContent) :
    ((c.commonName = some "Unknown" ∨ c.scientificName = some "Unknown") →
      identifyPlant_postParse m c
        = .error "No se pudo identificar una planta en esta imagen.") ∧
    ∀ a, identifyPlant_postParse m c = .ok a →
      a.commonName ≠ some "Unknown" ∧ a.scientificName ≠ some "Unknown" := by
  constructor
  · intro h
    have hs : (c.commonName == some "Unknown" || c.scientificName == some "Unknown") = true := by
      rcases h with h | h <;> simp [h]
    unfold identifyPlant_postParse identifyWithOpenAI_postParse identifyWithGemini_postParse
    rw [hs]
    simp
  · intro a ha
    unfold identifyPlant_postParse identifyWithOpenAI_postParse identifyWithGemini_postParse at ha
    by_cases hs : (c.commonName == some "Unknown" || c.scientificName == some "Unknown") = true
    · rw [hs] at ha
      simp at ha
    · rw [Bool.not_eq_true] at hs
      rw [hs] at ha
      simp at ha
      subst ha
      simp only [Bool.or_eq_false_iff, beq_eq_false_iff_ne] at hs
      exact hs

/-- Witness for C1 at concrete inputs: the sentinel response is
rejected by the OpenAI-selected path, and a successfully returned
response has non-`"Unknown"` names. -/
theorem c1_identify_rejects_unknown_witness :
    identifyPlant_postParse { OPENAI_API_KEY := some "k", GEMINI_API_KEY := none } unknownContent
        = .error "No se pudo identificar una planta en esta imagen." ∧
    fullContent.commonName ≠ some "Unknown" ∧ fullContent.scientificName ≠ some "Unknown" :=
  ⟨(c1_identify_rejects_unknown _ unknownContent).1 (Or.inl rfl),
   (c1_identify_rejects_unknown
      { OPENAI_API_KEY := none, GEMINI_API_KEY := some "g" } fullContent).2 fullContent rfl⟩

/-- **C3** (counterexample): the selection constant is captured at
module load, not re-read at call time — with a module loaded when no
OpenAI key was configured, a later call still dispatches to Gemini even
though the configuration current at call time selects OpenAI. -/
theorem c3_counterexample :
    identifyPlantBackend (initModule { apiKeyOpenAI := none, apiKey := some "g" })
        { apiKeyOpenAI := some "k", apiKey := some "g" } = .gemini ∧
    selectBackend (initModule { apiKeyOpenAI := some "k", apiKey := some "g" }) = .openai :=
  ⟨rfl, rfl⟩

/-- **C3** (amended): the backend-selection check reads module-level
constants captured once at module evaluation, so it is identical for
every call and every call-time environment until the module is
re-evaluated; within a single call exactly one backend is chosen, and
identify and generate use the same selection rule. -/
theorem c3_selection_cached (m : ModuleState) (env env' : Env) :
    identifyPlantBackend m env = selectBackend m ∧
    generatePlantImageBackend m env = selectBackend m ∧
    identifyPlantBackend m env = identifyPlantBackend m env' ∧
    identifyPlantBackend m env = generatePlantImageBackend m env' :=
  ⟨rfl, rfl, rfl, rfl⟩

/-- **C4** (counterexample): the free-JSON (OpenAI) identify path
returns a parsed value that fails the required-field shape — no shape
validation happens before the value is returned as a `PlantAnalysis`. -/
theorem c4_counterexample :
    shapeOK badShapeContent = false ∧
    identifyWithOpenAI_postParse badShapeContent = .ok badShapeContent :=
  ⟨rfl, rfl⟩

/-- **C4** (amended): the free-JSON (OpenAI) identify path applies only
the `Unknown`-sentinel check to the parsed value: any parsed value, of
valid shape or not, that passes the sentinel is returned unchanged
(the `as PlantAnalysis` cast is unchecked). -/
theorem c4_only_sentinel_check (c : ParsedContent) :
    (identifyWithOpenAI_postParse c = .ok c ∨
      identifyWithOpenAI_postParse c
        = .error "No se pudo identificar una planta en esta imagen.") ∧
    (c.commonName ≠ some "Unknown" → c.scientificName ≠ some "Unknown" →
      identifyWithOpenAI_postParse c = .ok c) := by
  constructor
  · unfold identifyWithOpenAI_postParse
    by_cases hs : (c.commonName == some "Unknown" || c.scientificName == some "Unknown") = true
    · rw [hs]
      exact Or.inr rfl
    · rw [Bool.not_eq_true] at hs
      rw [hs]
      exact Or.inl rfl
  · intro h1 h2
    have hs : (c.commonName == some "Unknown" || c.scientificName == some "Unknown") = false := by
      simp only [Bool.or_eq_false_iff, beq_eq_false_iff_ne]
      exact ⟨h1, h2⟩
    unfold identifyWithOpenAI_postParse
    rw [hs]
    simp

/-- Witness for C4 amended at a concrete input. -/
theorem c4_only_sentinel_check_witness :
    identifyWithOpenAI_postParse fullContent = .ok fullContent :=
  (c4_only_sentinel_check fullContent).2 (by decide) (by decide)

/-- **C5** (counterexample): with the Gemini backend selected, a
`generatePlantImage` call forwards the prompt to the backend unchanged —
in particular the style suffix named by the spec is not appended inside
the abstraction. -/
theorem c5_counterexample :
    generatePlantImage_sentPrompt
        (initModule { apiKeyOpenAI := none, apiKey := some "g" }) "una rosa" = "una rosa" ∧
    ("una rosa" : String) ≠ "una rosa" ++ spec_claimedStyleSuffix :=
  ⟨rfl, by decide⟩

/-- **C5** (amended): no style suffix is appended by the
`generatePlantImage` abstraction itself.  The OpenAI image backend
appends `". Photorealistic, high quality, botanical photography style,
isolated subject."` to its prompt, the Gemini image backend sends the
prompt unchanged, and the caller `handleGenerateImage` appends its own
suffix `" . Photorealistic, high quality, botanical photography
style."` before calling the abstraction. -/
theorem c5_suffix_location (m : ModuleState) (prompt : String) :
    (truthy m.OPENAI_API_KEY = true →
      generatePlantImage_sentPrompt m prompt
        = prompt ++ ". Photorealistic, high quality, botanical photography style, isolated subject.") ∧
    (truthy m.OPENAI_API_KEY = false →
      generatePlantImage_sentPrompt m prompt = prompt) ∧
    (jsTrim prompt ≠ "" →
      handleGenerateImage_arg prompt
        = some (prompt ++ " . Photorealistic, high quality, botanical photography style.")) := by
  refine ⟨fun ht => ?_, fun ht => ?_, fun ht => ?_⟩
  · unfold generatePlantImage_sentPrompt generateImageWithOpenAI_sentPrompt
    rw [ht]
    simp
  · unfold generatePlantImage_sentPrompt generateImageWithGemini_sentPrompt
    rw [ht]
    simp
  · unfold handleGenerateImage_arg
    rw [if_neg ht]

/-- Witness for C5 amended at concrete inputs: both selections and the
caller-side suffix. -/
theorem c5_suffix_location_witness :
    generatePlantImage_sentPrompt { OPENAI_API_KEY := some "k", GEMINI_API_KEY := none } "una rosa"
        = "una rosa. Photorealistic, high quality, botanical photography style, isolated subject." ∧
    generatePlantImage_sentPrompt { OPENAI_API_KEY := none, GEMINI_API_KEY := some "g" } "una rosa"
        = "una rosa" ∧
    handleGenerateImage_arg "una rosa"
        = some "una rosa . Photorealistic, high quality, botanical photography style." :=
  ⟨(c5_suffix_location { OPENAI_API_KEY := some "k", GEMINI_API_KEY := none } "una rosa").1
      (by decide),
   (c5_suffix_location { OPENAI_API_KEY := none, GEMINI_API_KEY := some "g" } "una rosa").2.1
      (by decide),
   (c5_suffix_location { OPENAI_API_KEY := none, GEMINI_API_KEY := some "g" } "una rosa").2.2
      (by decide)⟩

/-- **C6** (confirmed): `saveEntry` then `listEntries` yields the saved
entry first followed by the previous collection in order; saving an
entry whose id already occurs still adds it (a duplicate is created:
the count of entries with that id grows by one). -/
theorem c6_saveEntry_prepends (st : Storage) (e : UserPlant) :
    getPlants (savePlant st e) = e :: getPlants st ∧
    (getPlants (savePlant st e)).length = (getPlants st).length + 1 ∧
    (getPlants (savePlant st e)).countP (fun p => p.id == e.id)
      = (getPlants st).countP (fun p => p.id == e.id) + 1 := by
  refine ⟨rfl, rfl, ?_⟩
  show (e :: getPlants st).countP (fun p => p.id == e.id) = _
  simp [List.countP_cons]

/-- **C9** (confirmed): `listEntries` is total over every storage
content and silently degrades to the empty sequence when the blob is
absent or unreadable/unparsable; a well-formed blob is returned as-is. -/
theorem c9_listEntries_silent_recovery :
    getPlants Storage.absent = [] ∧ getPlants Storage.corrupted = [] ∧
    ∀ l : List UserPlant, getPlants (Storage.stored l) = l :=
  ⟨rfl, rfl, fun _ => rfl⟩

/-- **C2** (counterexample): called directly with empty text and a
present id, the store-level `addNoteToPlant` creates a note with empty
text and changes the persisted collection — there is no validation at
the store boundary. -/
theorem c2_counterexample :
    getPlants (addNoteToPlant (Storage.stored [samplePlant]) "1" "" "99" "2024-01-02").1
      = [{ samplePlant with notes := [⟨"99", "2024-01-02", ""⟩] }] ∧
    getPlants (addNoteToPlant (Storage.stored [samplePlant]) "1" "" "99" "2024-01-02").1
      ≠ getPlants (Storage.stored [samplePlant]) :=
  ⟨rfl, by decide⟩

/-- **C2** (amended): the empty/whitespace-only rejection is enforced
by the caller `handleAddNote`, not at the store boundary: the caller
returns without touching the store when the trimmed text is empty (or
no entry is selected), while `addNoteToPlant` itself stores whatever
text it is given, empty included. -/
theorem c2_validation_at_caller (sp : UserPlant) (st : Storage)
    (text noteId noteDate : String) :
    (jsTrim text = "" → handleAddNote (some sp) st text noteId noteDate = (st, none)) ∧
    handleAddNote none st text noteId noteDate = (st, none) ∧
    (∀ i x, findIndex (fun p => p.id == sp.id) (getPlants st) = some i →
      (getPlants st).get? i = some x →
      (addNoteToPlant st sp.id text noteId noteDate).2
        = some { x with notes := ⟨noteId, noteDate, text⟩ :: x.notes }) := by
  refine ⟨fun htrim => ?_, rfl, fun i x hfi hget => ?_⟩
  · simp [handleAddNote, htrim]
  · rw [addNoteToPlant_eq hfi hget]

/-- Witness for C2 amended: whitespace-only text is rejected by the
caller, while the store inserts an empty note when called directly. -/
theorem c2_validation_at_caller_witness :
    handleAddNote (some samplePlant) (Storage.stored [samplePlant]) "   " "99" "d"
      = (Storage.stored [samplePlant], none) ∧
    (addNoteToPlant (Storage.stored [samplePlant]) "1" " " "99" "d").2
      = some { samplePlant with notes := [⟨"99", "d", " "⟩] } :=
  ⟨(c2_validation_at_caller samplePlant _ "   " "99" "d").1 (by decide),
   (c2_validation_at_caller samplePlant _ " " "99" "d").2.2 0 samplePlant
      (by decide) (by decide)⟩

/-- **C7** (confirmed): for an id present in the collection,
`toggleFavorite` twice restores the collection exactly (in particular
the entry's original `isFavorite`), a single call returns the entry
with `isFavorite` flipped, and for an absent id the call returns the
not-found sentinel with the state untouched. -/
theorem c7_toggleFavorite_involutive (st : Storage) (pid : String) :
    ((getPlants st).any (fun p => p.id == pid) = true →
      getPlants (toggleFavoritePlant (toggleFavoritePlant st pid).1 pid).1 = getPlants st ∧
      ∀ i x, findIndex (fun p => p.id == pid) (getPlants st) = some i →
        (getPlants st).get? i = some x →
        (toggleFavoritePlant st pid).2 = some { x with isFavorite := !x.isFavorite }) ∧
    ((getPlants st).any (fun p => p.id == pid) = false →
      toggleFavoritePlant st pid = (st, none)) := by
  constructor
  · intro hany
    rcases Option.isSome_iff_exists.mp (findIndex_isSome_of_any hany) with ⟨i, hfi⟩
    obtain ⟨x, hget, hqx⟩ := get?_findIndex hfi
    have h1 := toggleFavoritePlant_eq hfi hget
    refine ⟨?_, fun i' x' hfi' hget' => by rw [toggleFavoritePlant_eq hfi' hget']⟩
    have hl1 : getPlants (toggleFavoritePlant st pid).1
        = (getPlants st).set i { x with isFavorite := !x.isFavorite } := by
      rw [h1]
      rfl
    have hqy : (fun p => p.id == pid) ({ x with isFavorite := !x.isFavorite } : UserPlant)
        = true := hqx
    have hfi2 : findIndex (fun p => p.id == pid) (getPlants (toggleFavoritePlant st pid).1)
        = some i := by
      rw [hl1]
      exact findIndex_set_same hfi hqy
    have hget2 : (getPlants (toggleFavoritePlant st pid).1).get? i
        = some { x with isFavorite := !x.isFavorite } := by
      rw [hl1]
      exact get?_set_self (findIndex_lt_length hfi)
    rw [toggleFavoritePlant_eq hfi2 hget2, getPlants_setItem, hl1, List.set_set]
    have hz : ({ { x with isFavorite := !x.isFavorite } with
        isFavorite := !({ x with isFavorite := !x.isFavorite } : UserPlant).isFavorite } : UserPlant)
        = x := by
      cases x
      simp
    rw [hz]
    exact set_get?_self hget
  · intro hnone
    exact toggleFavoritePlant_absent (findIndex_none_of_not_any hnone)

/-- Witness for C7 at a concrete two-plant store: double toggle
restores, single toggle flips, absent id is a no-op with sentinel. -/
theorem c7_toggleFavorite_involutive_witness :
    getPlants (toggleFavoritePlant
        (toggleFavoritePlant (Storage.stored [samplePlant, samplePlant2]) "1").1 "1").1
      = getPlants (Storage.stored [samplePlant, samplePlant2]) ∧
    (toggleFavoritePlant (Storage.stored [samplePlant, samplePlant2]) "1").2
      = some { samplePlant with isFavorite := !samplePlant.isFavorite } ∧
    toggleFavoritePlant (Storage.stored [samplePlant, samplePlant2]) "3"
      = (Storage.stored [samplePlant, samplePlant2], none) :=
  ⟨((c7_toggleFavorite_involutive (Storage.stored [samplePlant, samplePlant2]) "1").1
      (by decide)).1,
   ((c7_toggleFavorite_involutive (Storage.stored [samplePlant, samplePlant2]) "1").1
      (by decide)).2 0 samplePlant (by decide) (by decide),
   (c7_toggleFavorite_involutive (Storage.stored [samplePlant, samplePlant2]) "3").2
      (by decide)⟩

/-- **C8** (confirmed): for an id present in the collection and
non-empty text, `addNote` prepends exactly one fresh note to the
matched entry: afterwards that entry's first note carries `text`, its
note count grew by one, and the whole new note list is the new note
consed onto the old one (newest-first prepend preserved). -/
theorem c8_addNote_prepends_note (st : Storage) (pid text noteId noteDate : String)
    (i : Nat) (x : UserPlant)
    (hfi : findIndex (fun p => p.id == pid) (getPlants st) = some i)
    (hget : (getPlants st).get? i = some x)
    (htext : text ≠ "") :
    (addNoteToPlant st pid text noteId noteDate).2
      = some { x with notes := ⟨noteId, noteDate, text⟩ :: x.notes } ∧
    (getPlants (addNoteToPlant st pid text noteId noteDate).1).get? i
      = some { x with notes := ⟨noteId, noteDate, text⟩ :: x.notes } ∧
    Option.map PlantNote.text
        ({ x with notes := ⟨noteId, noteDate, text⟩ :: x.notes } : UserPlant).notes.head?
      = some text ∧
    ({ x with notes := ⟨noteId, noteDate, text⟩ :: x.notes } : UserPlant).notes.length
      = x.notes.length + 1 := by
  have h := addNoteToPlant_eq hfi hget text noteId noteDate
  refine ⟨by rw [h], ?_, rfl, by simp⟩
  rw [h]
  exact get?_set_self (findIndex_lt_length hfi)

/-- Witness for C8 at a concrete store. -/
theorem c8_addNote_prepends_note_witness :
    (addNoteToPlant (Storage.stored [samplePlant]) "1" "Watered today" "99" "d").2
      = some { samplePlant with notes := [⟨"99", "d", "Watered today"⟩] } ∧
    (getPlants (addNoteToPlant (Storage.stored [samplePlant]) "1" "Watered today" "99" "d").1).get? 0
      = some { samplePlant with notes := [⟨"99", "d", "Watered today"⟩] } :=
  ⟨(c8_addNote_prepends_note (Storage.stored [samplePlant]) "1" "Watered today" "99" "d"
      0 samplePlant (by decide) (by decide) (by decide)).1,
   (c8_addNote_prepends_note (Storage.stored [samplePlant]) "1" "Watered today" "99" "d"
      0 samplePlant (by decide) (by decide) (by decide)).2.1⟩

/-- **C10** (confirmed): for an id present in the collection,
`toggleFavorite` and `addNote` change only the matched entry, and in it
only the target field (the replacement entry is a record update of the
old one touching `isFavorite` resp. `notes` alone): the collection
keeps its length and every other position is exactly unchanged. -/
theorem c10_frame_conditions (st : Storage) (pid text noteId noteDate : String)
    (i : Nat) (x : UserPlant)
    (hfi : findIndex (fun p => p.id == pid) (getPlants st) = some i)
    (hget : (getPlants st).get? i = some x) :
    ((getPlants (toggleFavoritePlant st pid).1).length = (getPlants st).length ∧
     (∀ j, j ≠ i → (getPlants (toggleFavoritePlant st pid).1).get? j
        = (getPlants st).get? j) ∧
     (getPlants (toggleFavoritePlant st pid).1).get? i
        = some { x with isFavorite := !x.isFavorite }) ∧
    ((getPlants (addNoteToPlant st pid text noteId noteDate).1).length
        = (getPlants st).length ∧
     (∀ j, j ≠ i → (getPlants (addNoteToPlant st pid text noteId noteDate).1).get? j
        = (getPlants st).get? j) ∧
     (getPlants (addNoteToPlant st pid text noteId noteDate).1).get? i
        = some { x with notes := ⟨noteId, noteDate, text⟩ :: x.notes }) := by
  have ht := toggleFavoritePlant_eq hfi hget
  have ha := addNoteToPlant_eq hfi hget text noteId noteDate
  have hlen := findIndex_lt_length hfi
  refine ⟨⟨?_, fun j hj => ?_, ?_⟩, ⟨?_, fun j hj => ?_, ?_⟩⟩
  · rw [ht]
    exact List.length_set ..
  · rw [ht]
    exact get?_set_ne (Ne.symm hj)
  · rw [ht]
    exact get?_set_self hlen
  · rw [ha]
    exact List.length_set ..
  · rw [ha]
    exact get?_set_ne (Ne.symm hj)
  · rw [ha]
    exact get?_set_self hlen

/-- Witness for C10 at a concrete two-plant store: the untouched second
entry and the length are preserved by both operations. -/
theorem c10_frame_conditions_witness :
    (getPlants (toggleFavoritePlant (Storage.stored [samplePlant, samplePlant2]) "1").1).length
      = 2 ∧
    (getPlants (toggleFavoritePlant (Storage.stored [samplePlant, samplePlant2]) "1").1).get? 1
      = some samplePlant2 ∧
    (getPlants (addNoteToPlant (Storage.stored [samplePlant, samplePlant2]) "1" "t" "99" "d").1).length
      = 2 ∧
    (getPlants (addNoteToPlant (Storage.stored [samplePlant, samplePlant2]) "1" "t" "99" "d").1).get? 1
      = some samplePlant2 :=
  ⟨(c10_frame_conditions (Storage.stored [samplePlant, samplePlant2]) "1" "t" "99" "d"
      0 samplePlant (by decide) (by decide)).1.1,
   (c10_frame_conditions (Storage.stored [samplePlant, samplePlant2]) "1" "t" "99" "d"
      0 samplePlant (by decide) (by decide)).1.2.1 1 (by decide),
   (c10_frame_conditions (Storage.stored [samplePlant, samplePlant2]) "1" "t" "99" "d"
      0 samplePlant (by decide) (by decide)).2.1,
   (c10_frame_conditions (Storage.stored [samplePlant, samplePlant2]) "1" "t" "99" "d"
      0 samplePlant (by decide) (by decide)).2.2.1 1 (by decide)⟩

end Planta
